import Mathlib

/-!
Shallow embedding of `src/pages/admin/ReceiptsManagement.tsx`.

The component renders an administrative table of payment receipts:
it fetches the full collection, filters it by a free-text search term
(case-insensitive substring match over seven fields), slices the filtered
collection into pages of ten, and renders navigation controls.

JavaScript strings are modelled as Lean `String`; `toLowerCase` is modelled
character-wise and `includes` as the (decidable) list-infix relation on the
underlying character lists.  JavaScript numbers used here are all small
non-negative integers (array indices, page numbers), modelled as `Nat` with
the truncating subtraction that `slice` index arithmetic induces.
-/

/-- JS `String.prototype.toLowerCase`, modelled character-wise. -/
def toLowerCase (s : String) : String :=
  ⟨s.data.map Char.toLower⟩

/-- JS `hay.includes(needle)`: `needle` occurs contiguously inside `hay`. -/
def includes (hay needle : String) : Bool :=
  decide (needle.data <:+: hay.data)

/-- JS `Array.prototype.slice(start, stop)` for non-negative indices:
the elements at indices `[start, stop)`, clamped to the array bounds. -/
def jsSlice {α : Type} (l : List α) (start stop : Nat) : List α :=
  (l.drop start).take (stop - start)

/-- `receipt.booking.user` as consumed by the component. -/
structure BookingUser where
  name : String
  email : String
deriving DecidableEq

/-- `receipt.booking.service` as consumed by the component. -/
structure BookingService where
  name : String
deriving DecidableEq

/-- `receipt.booking` as consumed by the component. -/
structure Booking where
  _id : String
  user : BookingUser
  service : BookingService
  status : String
deriving DecidableEq

/-- A receipt record, with the fields the component reads. -/
structure Receipt where
  _id : String
  booking : Booking
  finalPrice : Int
  servicePersonnelName : String
  completionDate : String
deriving DecidableEq

/-- `const [itemsPerPage] = useState(10)`. -/
def itemsPerPage : Nat := 10

/-- The predicate inside `receipts.filter(...)` (lines 53-64): the lowercased
search term is a substring of the lowercase of one of seven fields. -/
def matchesSearch (searchTerm : String) (receipt : Receipt) : Bool :=
  let searchLower := toLowerCase searchTerm
  includes (toLowerCase receipt._id) searchLower ||
  includes (toLowerCase receipt.booking._id) searchLower ||
  includes (toLowerCase receipt.booking.user.name) searchLower ||
  includes (toLowerCase receipt.booking.user.email) searchLower ||
  includes (toLowerCase receipt.booking.service.name) searchLower ||
  includes (toLowerCase receipt.servicePersonnelName) searchLower ||
  includes (toLowerCase receipt.booking.status) searchLower

/-- `const filteredReceipts = receipts.filter(receipt => ...)`. -/
def filteredReceipts (receipts : List Receipt) (searchTerm : String) : List Receipt :=
  receipts.filter (matchesSearch searchTerm)

/-- `const indexOfLastReceipt = currentPage * itemsPerPage`. -/
def indexOfLastReceipt (currentPage : Nat) : Nat :=
  currentPage * itemsPerPage

/-- `const indexOfFirstReceipt = indexOfLastReceipt - itemsPerPage`. -/
def indexOfFirstReceipt (currentPage : Nat) : Nat :=
  indexOfLastReceipt currentPage - itemsPerPage

/-- `const currentReceipts = filteredReceipts.slice(indexOfFirstReceipt, indexOfLastReceipt)`. -/
def currentReceipts (receipts : List Receipt) (searchTerm : String) (currentPage : Nat) : List Receipt :=
  jsSlice (filteredReceipts receipts searchTerm)
    (indexOfFirstReceipt currentPage) (indexOfLastReceipt currentPage)

/-- `Math.ceil(n / itemsPerPage)` for a natural `n`, as used for the page
count in the page-button array and the next-button handler. -/
def pageCount (n : Nat) : Nat :=
  (n + itemsPerPage - 1) / itemsPerPage

/-- The labels of the rendered page buttons:
`Array.from({length: Math.ceil(filteredReceipts.length / itemsPerPage)}).map((_, index) => ... index + 1)`. -/
def pageButtons (receipts : List Receipt) (searchTerm : String) : List Nat :=
  (List.range (pageCount (filteredReceipts receipts searchTerm).length)).map (fun index => index + 1)

/-- The guard `filteredReceipts.length > 0 && (...)` around the pagination block. -/
def paginationRendered (receipts : List Receipt) (searchTerm : String) : Bool :=
  decide ((filteredReceipts receipts searchTerm).length > 0)

/-- The page number passed to `paginate` by the previous button:
`currentPage > 1 ? currentPage - 1 : 1`. -/
def previousClickTarget (currentPage : Nat) : Nat :=
  if currentPage > 1 then currentPage - 1 else 1

/-- The page number passed to `paginate` by the next button:
`currentPage < Math.ceil(filteredReceipts.length / itemsPerPage) ? currentPage + 1 : currentPage`. -/
def nextClickTarget (currentPage totalPages : Nat) : Nat :=
  if currentPage < totalPages then currentPage + 1 else currentPage

/-- The rendered `tbody`: either one row per receipt of the current page, or a
single empty-state row carrying a message. -/
inductive TableBody where
  | rows (receipts : List Receipt)
  | emptyState (message : String)
deriving DecidableEq

/-- The `tbody` contents (lines 139-170): data rows when the current page is
non-empty, otherwise the search-aware empty-state row
`searchTerm ? "No receipts found matching your search." : "No receipts found."`. -/
def renderTableBody (receipts : List Receipt) (searchTerm : String) (currentPage : Nat) : TableBody :=
  let current := currentReceipts receipts searchTerm currentPage
  if current.length > 0 then
    TableBody.rows current
  else
    TableBody.emptyState
      (if searchTerm ≠ "" then "No receipts found matching your search." else "No receipts found.")

/-- The component's local state (the seven `useState` hooks; `itemsPerPage`
is constant and kept global). -/
structure ComponentState where
  receipts : List Receipt
  isLoading : Bool
  error : Option String
  searchTerm : String
  selectedReceipt : Option Receipt
  isModalOpen : Bool
  currentPage : Nat
deriving DecidableEq

/-- The initial state of the seven hooks. -/
def initialState : ComponentState :=
  { receipts := []
    isLoading := false
    error := none
    searchTerm := ""
    selectedReceipt := none
    isModalOpen := false
    currentPage := 1 }

/-- The search input handler `(e) => setSearchTerm(e.target.value)`. -/
def handleSearchInput (s : ComponentState) (value : String) : ComponentState :=
  { s with searchTerm := value }

/-- Outcome of `receiptService.getAllReceipts()`: resolved data, or a thrown
error whose `.message` may be absent. -/
inductive FetchResult where
  | success (data : List Receipt)
  | failure (message : Option String)

/-- The literal used both for the fallback inline error and the toast. -/
def defaultFetchError : String := "Failed to load receipts"

/-- JS `err.message || 'Failed to load receipts'` (an absent or empty message
falls through to the default). -/
def errorMessageOrDefault : Option String → String
  | some m => if m = "" then defaultFetchError else m
  | none => defaultFetchError

/-- `fetchReceipts` (lines 23-36) as a state transition: given the state before
the call and the outcome of `getAllReceipts`, returns the state after the
`finally` block together with the list of toast messages emitted. -/
def fetchReceipts (s : ComponentState) (result : FetchResult) : ComponentState × List String :=
  let pending := { s with isLoading := true, error := none }
  match result with
  | FetchResult.success data =>
      ({ pending with receipts := data, isLoading := false }, [])
  | FetchResult.failure msg =>
      ({ pending with error := some (errorMessageOrDefault msg), isLoading := false },
       [defaultFetchError])

/-- `formatDate` (lines 38-44).  The external `format(new Date(dateString), 'MMM dd, yyyy HH:mm')`
is abstracted as a function returning `some` formatted text, or `none` when it
would throw (unparseable input); the `catch` branch returns the raw string. -/
def formatDate (dateFnsFormat : String → Option String) (dateString : String) : String :=
  match dateFnsFormat dateString with
  | some formatted => formatted
  | none => dateString

/-- The text of a row's completion-date cell: `formatDate(receipt.completionDate)`. -/
def dateCellText (dateFnsFormat : String → Option String) (receipt : Receipt) : String :=
  formatDate dateFnsFormat receipt.completionDate

/- Sample data for the concrete witnesses. -/

/-- A concrete receipt used by the witnesses. -/
def sampleReceipt : Receipt :=
  { _id := "r1"
    booking :=
      { _id := "b1"
        user := { name := "Alice Smith", email := "alice@example.com" }
        service := { name := "Cleaning" }
        status := "completed" }
    finalPrice := 50
    servicePersonnelName := "Bob Jones"
    completionDate := "2024-01-15T10:30:00" }

/-- A one-element collection used by the witnesses. -/
def sampleReceipts : List Receipt := [sampleReceipt]

/-- A concrete stand-in for the external date parse-and-format function. -/
def demoDateFns : String → Option String :=
  fun s => if s = "2024-01-15T10:30:00" then some "Jan 15, 2024 10:30" else none

/- Helper lemmas. -/

/-- The empty search term (lowercased) is a substring of every field. -/
theorem includes_empty_needle (hay : String) : includes hay (toLowerCase "") = true :=
  decide_eq_true List.nil_infix

/-- The slice for 1-indexed page `k + 1` is `take 10` after `drop (k * 10)`. -/
theorem currentReceipts_succ (C : List Receipt) (t : String) (k : Nat) :
    currentReceipts C t (k + 1) = ((filteredReceipts C t).drop (k * 10)).take 10 := by
  unfold currentReceipts jsSlice indexOfFirstReceipt indexOfLastReceipt itemsPerPage
  rw [show (k + 1) * 10 - 10 = k * 10 from by omega]
  rw [show (k + 1) * 10 - k * 10 = 10 from by omega]

/-- Concatenating the first `n` pages yields the first `n * 10` elements of the
filtered collection. -/
theorem flatten_pages (C : List Receipt) (t : String) (n : Nat) :
    ((List.range n).map (fun i => currentReceipts C t (i + 1))).flatten
      = (filteredReceipts C t).take (n * 10) := by
  induction n with
  | zero => simp
  | succ k ih =>
      rw [List.range_succ, List.map_append, List.flatten_append, ih,
        show (k + 1) * 10 = k * 10 + 10 from by ring, List.take_add]
      simp [currentReceipts_succ]

/-- A page whose first index is at or past the end of the filtered collection
slices to the empty list. -/
theorem currentReceipts_out_of_range (C : List Receipt) (t : String) (p : Nat)
    (h : (filteredReceipts C t).length ≤ (p - 1) * 10) :
    currentReceipts C t p = [] := by
  unfold currentReceipts jsSlice indexOfFirstReceipt indexOfLastReceipt itemsPerPage
  rcases Nat.eq_zero_or_pos p with hp | hp
  · subst hp; simp
  · rw [show p * 10 - 10 = (p - 1) * 10 from by omega,
      List.drop_eq_nil_of_le h, List.take_nil]

/- Claim theorems. -/

/-- C1: the filter keeps exactly those receipts `r` of `C` such that the
lowercased search term is a substring of the lowercase of at least one of the
seven fields (receipt id, booking id, customer name, customer email, service
name, service-personnel name, booking status); a receipt matching none of them
is excluded. -/
theorem c1_filter_matches_iff (C : List Receipt) (t : String) (r : Receipt) :
    r ∈ filteredReceipts C t ↔
      r ∈ C ∧
        ((toLowerCase t).data <:+: (toLowerCase r._id).data ∨
         (toLowerCase t).data <:+: (toLowerCase r.booking._id).data ∨
         (toLowerCase t).data <:+: (toLowerCase r.booking.user.name).data ∨
         (toLowerCase t).data <:+: (toLowerCase r.booking.user.email).data ∨
         (toLowerCase t).data <:+: (toLowerCase r.booking.service.name).data ∨
         (toLowerCase t).data <:+: (toLowerCase r.servicePersonnelName).data ∨
         (toLowerCase t).data <:+: (toLowerCase r.booking.status).data) := by
  unfold filteredReceipts matchesSearch includes
  simp [List.mem_filter, Bool.or_eq_true, decide_eq_true_iff, or_assoc]

/-- C2: for a filtered collection of length `N` and a 1-indexed page `p`, the
paginator returns the slice of indices `[(p-1)*10, p*10)`; the number of page
buttons equals the page count, which is `ceil(N/10)` (characterised by its
Galois property `pageCount N ≤ m ↔ N ≤ m * 10`); and concatenating the slices
of pages `1 .. pageCount N` reconstructs the filtered collection exactly. -/
theorem c2_paginator_slice_and_page_count (C : List Receipt) (t : String) (p : Nat)
    (hp : 1 ≤ p) :
    currentReceipts C t p
        = ((filteredReceipts C t).drop ((p - 1) * 10)).take (p * 10 - (p - 1) * 10)
      ∧ (pageButtons C t).length = pageCount (filteredReceipts C t).length
      ∧ (∀ m : Nat, pageCount (filteredReceipts C t).length ≤ m ↔
          (filteredReceipts C t).length ≤ m * 10)
      ∧ ((List.range (pageCount (filteredReceipts C t).length)).map
            (fun i => currentReceipts C t (i + 1))).flatten = filteredReceipts C t := by
  refine ⟨?_, ?_, ?_, ?_⟩
  · obtain ⟨k, rfl⟩ : ∃ k, p = k + 1 := ⟨p - 1, by omega⟩
    rw [currentReceipts_succ]
    rw [show (k + 1 - 1) * 10 = k * 10 from by omega]
    rw [show (k + 1) * 10 - k * 10 = 10 from by omega]
  · unfold pageButtons
    rw [List.length_map, List.length_range]
  · intro m
    unfold pageCount itemsPerPage
    omega
  · rw [flatten_pages]
    apply List.take_of_length_le
    unfold pageCount itemsPerPage
    omega

/-- C2 witness: page 1 of the concrete one-receipt collection is the slice
`[0, 10)` of the filtered collection. -/
theorem c2_paginator_witness :
    (1 : Nat) ≤ 1 ∧
      currentReceipts sampleReceipts "" 1
        = ((filteredReceipts sampleReceipts "").drop ((1 - 1) * 10)).take
            (1 * 10 - (1 - 1) * 10) :=
  ⟨by decide, (c2_paginator_slice_and_page_count sampleReceipts "" 1 (by decide)).1⟩

/-- C3 counterexample: with filtered length 10 the last page is
`pageCount 10 = 1`; on (out-of-range) current page 3 the next button passes 3
to `paginate`, leaving the page at 3 instead of clamping it to the last page 1
as the claim states. -/
theorem c3_next_no_clamp_counterexample :
    nextClickTarget 3 (pageCount 10) = 3 ∧ nextClickTarget 3 (pageCount 10) ≠ 1 := by
  constructor <;> decide

/-- C3 (amended): previous sets the page to `p - 1` when `p > 1` and clamps to
1 when `p ≤ 1`; next sets the page to `p + 1` when `p < L` (with
`L = pageCount N`) and leaves the page number unchanged when `p ≥ L` — in
particular clicking Next on the last page is a no-op, but an out-of-range page
`p > L` is left as is rather than clamped down to `L`. -/
theorem c3_navigation_amended (p N : Nat) :
    (1 < p → previousClickTarget p = p - 1) ∧
    (p ≤ 1 → previousClickTarget p = 1) ∧
    (p < pageCount N → nextClickTarget p (pageCount N) = p + 1) ∧
    (pageCount N ≤ p → nextClickTarget p (pageCount N) = p) := by
  refine ⟨?_, ?_, ?_, ?_⟩ <;> intro h <;>
    simp [previousClickTarget, nextClickTarget] <;> omega

/-- C3 witness: with 25 filtered receipts (`pageCount 25 = 3`): previous from
page 2 goes to 1, previous from page 1 stays at 1, next from page 2 goes to 3,
and next from the out-of-range page 5 stays at 5. -/
theorem c3_navigation_witness :
    previousClickTarget 2 = 1 ∧ previousClickTarget 1 = 1 ∧
      nextClickTarget 2 (pageCount 25) = 3 ∧ nextClickTarget 5 (pageCount 25) = 5 :=
  ⟨(c3_navigation_amended 2 25).1 (by decide), (c3_navigation_amended 1 25).2.1 (by decide),
   (c3_navigation_amended 2 25).2.2.1 (by decide), (c3_navigation_amended 5 25).2.2.2 (by decide)⟩

/-- C4: for every search term the filter output is a sublist of the input
collection: every kept receipt occurs in the input, in the same relative
order, without duplication (stable filter). -/
theorem c4_filter_is_sublist (C : List Receipt) (t : String) :
    (filteredReceipts C t).Sublist C :=
  List.filter_sublist C

/-- C5: on fetch failure the inline error records the failure's message (the
default when the message is absent), exactly one toast is emitted, the held
receipts are unchanged, and the loading flag is cleared; on success the held
collection is replaced wholesale, the error is unset, and loading is
cleared. -/
theorem c5_fetch_transition (s : ComponentState) (data : List Receipt) (m : String)
    (hm : m ≠ "") :
    (fetchReceipts s (FetchResult.failure (some m))).1.error = some m ∧
    (fetchReceipts s (FetchResult.failure none)).1.error = some defaultFetchError ∧
    (fetchReceipts s (FetchResult.failure (some m))).2 = [defaultFetchError] ∧
    (fetchReceipts s (FetchResult.failure (some m))).1.receipts = s.receipts ∧
    (fetchReceipts s (FetchResult.failure (some m))).1.isLoading = false ∧
    (fetchReceipts s (FetchResult.success data)).1.receipts = data ∧
    (fetchReceipts s (FetchResult.success data)).1.error = none ∧
    (fetchReceipts s (FetchResult.success data)).1.isLoading = false := by
  refine ⟨?_, rfl, rfl, rfl, rfl, rfl, rfl, rfl⟩
  simp [fetchReceipts, errorMessageOrDefault, hm]

/-- C5 witness: the fetch transition evaluated from the initial state with a
concrete failure message and a concrete success payload. -/
theorem c5_fetch_witness :
    ("boom" ≠ "") ∧
      ((fetchReceipts initialState (FetchResult.failure (some "boom"))).1.error = some "boom" ∧
       (fetchReceipts initialState (FetchResult.failure none)).1.error = some defaultFetchError ∧
       (fetchReceipts initialState (FetchResult.failure (some "boom"))).2 = [defaultFetchError] ∧
       (fetchReceipts initialState (FetchResult.failure (some "boom"))).1.receipts = initialState.receipts ∧
       (fetchReceipts initialState (FetchResult.failure (some "boom"))).1.isLoading = false ∧
       (fetchReceipts initialState (FetchResult.success sampleReceipts)).1.receipts = sampleReceipts ∧
       (fetchReceipts initialState (FetchResult.success sampleReceipts)).1.error = none ∧
       (fetchReceipts initialState (FetchResult.success sampleReceipts)).1.isLoading = false) :=
  ⟨by decide, c5_fetch_transition initialState sampleReceipts "boom" (by decide)⟩

/-- C6: when the external date formatter parses the input, the date cell shows
the formatted form; when it would throw (unparseable input), `formatDate`
returns the raw input string unchanged, so the row still renders. -/
theorem c6_formatDate_fallback (dateFnsFormat : String → Option String) (s : String) :
    (∀ f, dateFnsFormat s = some f → formatDate dateFnsFormat s = f) ∧
    (dateFnsFormat s = none → formatDate dateFnsFormat s = s) := by
  constructor
  · intro f hf
    unfold formatDate
    rw [hf]
  · intro hf
    unfold formatDate
    rw [hf]

/-- C6 witness: a parseable timestamp renders its formatted form, and the
unparseable string "not-a-date" renders verbatim. -/
theorem c6_formatDate_witness :
    formatDate demoDateFns "2024-01-15T10:30:00" = "Jan 15, 2024 10:30" ∧
    formatDate demoDateFns "not-a-date" = "not-a-date" :=
  ⟨(c6_formatDate_fallback demoDateFns "2024-01-15T10:30:00").1 "Jan 15, 2024 10:30" (by decide),
   (c6_formatDate_fallback demoDateFns "not-a-date").2 (by decide)⟩

/-- C7: filtering with the empty search term is the identity: every receipt
passes. -/
theorem c7_empty_term_identity (C : List Receipt) : filteredReceipts C "" = C := by
  apply List.filter_eq_self.mpr
  intro a _
  simp [matchesSearch, includes_empty_needle]

/-- C8: the filter is idempotent: filtering an already-filtered collection
with the same term changes nothing. -/
theorem c8_filter_idempotent (C : List Receipt) (t : String) :
    filteredReceipts (filteredReceipts C t) t = filteredReceipts C t := by
  apply List.filter_eq_self.mpr
  intro a ha
  exact List.of_mem_filter ha

/-- C9: when the filtered collection is empty, the pagination block is not
rendered, the page count (and so the number of page buttons) is 0, and the
table body is a single empty-state row whose message is search-aware. -/
theorem c9_empty_filtered_render (C : List Receipt) (t : String) (p : Nat)
    (h : filteredReceipts C t = []) :
    paginationRendered C t = false ∧
    pageCount (filteredReceipts C t).length = 0 ∧
    (pageButtons C t).length = 0 ∧
    renderTableBody C t p = TableBody.emptyState
      (if t ≠ "" then "No receipts found matching your search." else "No receipts found.") := by
  refine ⟨?_, ?_, ?_, ?_⟩
  · simp [paginationRendered, h]
  · simp [pageCount, itemsPerPage, h]
  · simp [pageButtons, pageCount, itemsPerPage, h]
  · have hcur : currentReceipts C t p = [] := by
      unfold currentReceipts jsSlice
      rw [h]
      simp
    simp [renderTableBody, hcur]

/-- C9 witness: an empty collection with the non-empty term "nomatch" renders
no pagination and the search-aware empty-state row. -/
theorem c9_empty_filtered_witness :
    (filteredReceipts [] "nomatch" = []) ∧
      (paginationRendered [] "nomatch" = false ∧
       pageCount (filteredReceipts [] "nomatch").length = 0 ∧
       (pageButtons [] "nomatch").length = 0 ∧
       renderTableBody [] "nomatch" 1 = TableBody.emptyState
         (if "nomatch" ≠ "" then "No receipts found matching your search."
          else "No receipts found.")) :=
  ⟨rfl, c9_empty_filtered_render [] "nomatch" 1 rfl⟩

/-- C10: changing the search term updates only the search-term field — in
particular the current page is not reset — and consequently whenever
`(p - 1) * 10` is at or past the new filtered length (which is positive), the
rendered page slice is empty rather than the first page of results. -/
theorem c10_search_change_frame (s : ComponentState) (t : String) :
    (handleSearchInput s t).currentPage = s.currentPage ∧
    (handleSearchInput s t).searchTerm = t ∧
    (handleSearchInput s t).receipts = s.receipts ∧
    (handleSearchInput s t).isLoading = s.isLoading ∧
    (handleSearchInput s t).error = s.error ∧
    (handleSearchInput s t).selectedReceipt = s.selectedReceipt ∧
    (handleSearchInput s t).isModalOpen = s.isModalOpen ∧
    ((filteredReceipts s.receipts t).length ≤ (s.currentPage - 1) * 10 →
      0 < (filteredReceipts s.receipts t).length →
      currentReceipts (handleSearchInput s t).receipts (handleSearchInput s t).searchTerm
        (handleSearchInput s t).currentPage = []) := by
  refine ⟨rfl, rfl, rfl, rfl, rfl, rfl, rfl, ?_⟩
  intro h _
  exact currentReceipts_out_of_range s.receipts t s.currentPage h

/-- C10 witness: clearing the search term while on page 2 of a one-receipt
collection keeps the page at 2 and renders an empty slice. -/
theorem c10_search_change_witness :
    (handleSearchInput { initialState with receipts := sampleReceipts, currentPage := 2 } "").currentPage = 2 ∧
    currentReceipts sampleReceipts "" 2 = [] := by
  have h := c10_search_change_frame
    { initialState with receipts := sampleReceipts, currentPage := 2 } ""
  exact ⟨h.1, h.2.2.2.2.2.2.2 (by decide) (by decide)⟩
